import Mathlib

/-!
Verification of the two source files of the crowd-funding repository:
`python/sparknlp/ocr.py` (an OCR proxy facade and a coordinate value object
that delegate every operation over a cross-language bridge) and
`python/tensorflow/spellchecker/run.py` (a linear spell-checker
training/inference script).

The cross-language bridge (py4j / `ExtendedJavaWrapper` / the JVM side) is
external to the repository; it is modelled as an abstract interface `Remote`
together with explicit `RemoteCall` records describing exactly which remote
invocation each local method performs.  Everything the local Python code does
is translated directly from the source.
-/

namespace OcrPy

/-- A Python run-time value crossing the bridge: numbers, strings, booleans,
remote handles, lists of values, or `None`. -/
inductive Val : Type where
  | int : Int → Val
  | str : String → Val
  | bool : Bool → Val
  | handle : Nat → Val
  | vlist : List Val → Val
  | pyNone : Val

/-- The Python type of an object, with enough structure to talk about the
class `SparkSession`, strict subclasses of it, and unrelated classes. -/
inductive PyType : Type where
  | SparkSession : PyType
  | SubClass : PyType → PyType
  | Other : String → PyType
deriving DecidableEq

/-- `subclassOf t u` holds when class `t` is `u` or a (transitive) subclass
of `u`; this is what Python's `isinstance` would consult.  The source code of
`createDataset` does NOT use it: it compares types for equality. -/
def subclassOf : PyType → PyType → Bool
  | t, u =>
    if t = u then true
    else
      match t with
      | PyType.SubClass parent => subclassOf parent u
      | _ => false

/-- A local Python object as seen by `ocr.py`: its run-time type and the
underlying JVM handle (`spark._jsparkSession` for session objects). -/
structure PyObj : Type where
  ty : PyType
  jhandle : Val

/-- A record of one invocation sent over the bridge: either constructing a
remote object of a named JVM class, or invoking a named method on a remote
receiver handle. -/
inductive RemoteCall : Type where
  | construct : String → List Val → RemoteCall
  | invoke : Val → String → List Val → RemoteCall

/-- The external bridge, kept abstract: `new` yields the handle produced by a
remote constructor and `call` yields the result of a remote method
invocation on a receiver handle.  The repository's code never inspects these
results. -/
structure Remote : Type where
  new : String → List Val → Val
  call : Val → String → List Val → Val

/-- The pyspark `DataFrame(jdf, session)` wrapper: a remote table handle
paired with the session object that produced it. -/
structure DataFrame : Type where
  jdf : Val
  session : PyObj

/-- The local `OcrHelper` proxy object: it holds only the remote handle
`self._java_obj` created by the `ExtendedJavaWrapper` super constructor. -/
structure OcrHelper : Type where
  java_obj : Val

/-- `OcrHelper.__init__` (ocr.py line 7-8): the super constructor is invoked
with the remote class name and no further arguments. -/
def OcrHelper.init (r : Remote) : RemoteCall × OcrHelper :=
  (RemoteCall.construct "com.johnsnowlabs.nlp.util.io.OcrHelper" [],
   ⟨r.new "com.johnsnowlabs.nlp.util.io.OcrHelper" []⟩)

/-- `OcrHelper.createDataset` (ocr.py lines 10-13): raise unless the type of
`spark` is exactly `SparkSession`; otherwise invoke the remote
`createDataset` with the session's JVM handle and the path and wrap the
result in a `DataFrame` paired with the session.  The first component lists
the remote invocations performed (empty on the raising path, where the
`raise` statement precedes the remote call expression). -/
def OcrHelper.createDataset (r : Remote) (self : OcrHelper) (spark : PyObj)
    (input_path : Val) : List RemoteCall × Except String DataFrame :=
  if spark.ty ≠ PyType.SparkSession then
    ([], Except.error "spark must be SparkSession")
  else
    ([RemoteCall.invoke self.java_obj "createDataset" [spark.jhandle, input_path]],
     Except.ok ⟨r.call self.java_obj "createDataset" [spark.jhandle, input_path], spark⟩)

/-- `OcrHelper.createMap` (ocr.py lines 15-16). -/
def OcrHelper.createMap (r : Remote) (self : OcrHelper) (input_path : Val) :
    RemoteCall × Val :=
  (RemoteCall.invoke self.java_obj "createMap" [input_path],
   r.call self.java_obj "createMap" [input_path])

/-- `OcrHelper.setPreferredMethod` (ocr.py lines 18-19). -/
def OcrHelper.setPreferredMethod (r : Remote) (self : OcrHelper) (value : Val) :
    RemoteCall × Val :=
  (RemoteCall.invoke self.java_obj "setPreferredMethod" [value],
   r.call self.java_obj "setPreferredMethod" [value])

/-- `OcrHelper.getPreferredMethod` (ocr.py lines 21-22). -/
def OcrHelper.getPreferredMethod (r : Remote) (self : OcrHelper) :
    RemoteCall × Val :=
  (RemoteCall.invoke self.java_obj "getPreferredMethod" [],
   r.call self.java_obj "getPreferredMethod" [])

/-- `OcrHelper.setFallbackMethod` (ocr.py lines 24-25). -/
def OcrHelper.setFallbackMethod (r : Remote) (self : OcrHelper) (value : Val) :
    RemoteCall × Val :=
  (RemoteCall.invoke self.java_obj "setFallbackMethod" [value],
   r.call self.java_obj "setFallbackMethod" [value])

/-- `OcrHelper.getFallbackMethod` (ocr.py lines 27-28). -/
def OcrHelper.getFallbackMethod (r : Remote) (self : OcrHelper) :
    RemoteCall × Val :=
  (RemoteCall.invoke self.java_obj "getFallbackMethod" [],
   r.call self.java_obj "getFallbackMethod" [])

/-- `OcrHelper.setMinSizeBeforeFallback` (ocr.py lines 30-31). -/
def OcrHelper.setMinSizeBeforeFallback (r : Remote) (self : OcrHelper) (value : Val) :
    RemoteCall × Val :=
  (RemoteCall.invoke self.java_obj "setMinSizeBeforeFallback" [value],
   r.call self.java_obj "setMinSizeBeforeFallback" [value])

/-- `OcrHelper.getMinSizeBeforeFallback` (ocr.py lines 33-34). -/
def OcrHelper.getMinSizeBeforeFallback (r : Remote) (self : OcrHelper) :
    RemoteCall × Val :=
  (RemoteCall.invoke self.java_obj "getMinSizeBeforeFallback" [],
   r.call self.java_obj "getMinSizeBeforeFallback" [])

/-- `OcrHelper.setEngineMode` (ocr.py lines 36-37). -/
def OcrHelper.setEngineMode (r : Remote) (self : OcrHelper) (mode : Val) :
    RemoteCall × Val :=
  (RemoteCall.invoke self.java_obj "setEngineMode" [mode],
   r.call self.java_obj "setEngineMode" [mode])

/-- `OcrHelper.getEngineMode` (ocr.py lines 39-40). -/
def OcrHelper.getEngineMode (r : Remote) (self : OcrHelper) :
    RemoteCall × Val :=
  (RemoteCall.invoke self.java_obj "getEngineMode" [],
   r.call self.java_obj "getEngineMode" [])

/-- `OcrHelper.setPageSegMode` (ocr.py lines 42-43). -/
def OcrHelper.setPageSegMode (r : Remote) (self : OcrHelper) (mode : Val) :
    RemoteCall × Val :=
  (RemoteCall.invoke self.java_obj "setPageSegMode" [mode],
   r.call self.java_obj "setPageSegMode" [mode])

/-- `OcrHelper.getPageSegMode` (ocr.py lines 45-46). -/
def OcrHelper.getPageSegMode (r : Remote) (self : OcrHelper) :
    RemoteCall × Val :=
  (RemoteCall.invoke self.java_obj "getPageSegMode" [],
   r.call self.java_obj "getPageSegMode" [])

/-- `OcrHelper.setPageIteratorLevel` (ocr.py lines 48-49). -/
def OcrHelper.setPageIteratorLevel (r : Remote) (self : OcrHelper) (level : Val) :
    RemoteCall × Val :=
  (RemoteCall.invoke self.java_obj "setPageIteratorLevel" [level],
   r.call self.java_obj "setPageIteratorLevel" [level])

/-- `OcrHelper.getPageIteratorLevel` (ocr.py lines 51-52). -/
def OcrHelper.getPageIteratorLevel (r : Remote) (self : OcrHelper) :
    RemoteCall × Val :=
  (RemoteCall.invoke self.java_obj "getPageIteratorLevel" [],
   r.call self.java_obj "getPageIteratorLevel" [])

/-- `OcrHelper.setScalingFactor` (ocr.py lines 54-55). -/
def OcrHelper.setScalingFactor (r : Remote) (self : OcrHelper) (factor : Val) :
    RemoteCall × Val :=
  (RemoteCall.invoke self.java_obj "setScalingFactor" [factor],
   r.call self.java_obj "setScalingFactor" [factor])

/-- `OcrHelper.setSplitPages` (ocr.py lines 57-58). -/
def OcrHelper.setSplitPages (r : Remote) (self : OcrHelper) (value : Val) :
    RemoteCall × Val :=
  (RemoteCall.invoke self.java_obj "setSplitPages" [value],
   r.call self.java_obj "setSplitPages" [value])

/-- `OcrHelper.getSplitPages` (ocr.py lines 60-61). -/
def OcrHelper.getSplitPages (r : Remote) (self : OcrHelper) :
    RemoteCall × Val :=
  (RemoteCall.invoke self.java_obj "getSplitPages" [],
   r.call self.java_obj "getSplitPages" [])

/-- `OcrHelper.setSplitRegions` (ocr.py lines 63-64). -/
def OcrHelper.setSplitRegions (r : Remote) (self : OcrHelper) (value : Val) :
    RemoteCall × Val :=
  (RemoteCall.invoke self.java_obj "setSplitRegions" [value],
   r.call self.java_obj "setSplitRegions" [value])

/-- `OcrHelper.getSplitRegions` (ocr.py lines 66-67). -/
def OcrHelper.getSplitRegions (r : Remote) (self : OcrHelper) :
    RemoteCall × Val :=
  (RemoteCall.invoke self.java_obj "getSplitRegions" [],
   r.call self.java_obj "getSplitRegions" [])

/-- `OcrHelper.useErosion` (ocr.py lines 69-70).  In the source `k_size`
defaults to `2` and `k_shape` to `0`; defaulting is Python call-site sugar,
so the embedding takes all three effective arguments. -/
def OcrHelper.useErosion (r : Remote) (self : OcrHelper) (use k_size k_shape : Val) :
    RemoteCall × Val :=
  (RemoteCall.invoke self.java_obj "useErosion" [use, k_size, k_shape],
   r.call self.java_obj "useErosion" [use, k_size, k_shape])

/-- The local `Coordinate` value object (ocr.py lines 85-93): the remote
handle created by the super constructor plus the six stored attributes. -/
structure Coordinate : Type where
  java_obj : Val
  i : Val
  p : Val
  x : Val
  y : Val
  w : Val
  h : Val

/-- `Coordinate.__init__` (ocr.py lines 86-93): forward the six values, in
order, to the remote-side constructor of
`com.johnsnowlabs.nlp.util.io.schema.Coordinate` (through the
`ExtendedJavaWrapper` super constructor), then store them as the attributes
`i, p, x, y, w, h`. -/
def Coordinate.init (r : Remote) (i p x y w h : Val) : RemoteCall × Coordinate :=
  (RemoteCall.construct "com.johnsnowlabs.nlp.util.io.schema.Coordinate" [i, p, x, y, w, h],
   { java_obj := r.new "com.johnsnowlabs.nlp.util.io.schema.Coordinate" [i, p, x, y, w, h],
     i := i, p := p, x := x, y := y, w := w, h := h })

/-- `OcrHelper.drawRectangle` (ocr.py lines 72-74): map each coordinate to
its remote handle, then invoke the remote `drawRectangle` with the session's
JVM handle, the path, and the handle list. -/
def OcrHelper.drawRectangle (r : Remote) (self : OcrHelper) (spark : PyObj)
    (path : Val) (coordinates : List Coordinate) : RemoteCall × Val :=
  (RemoteCall.invoke self.java_obj "drawRectangle"
     [spark.jhandle, path, Val.vlist (coordinates.map (fun c => c.java_obj))],
   r.call self.java_obj "drawRectangle"
     [spark.jhandle, path, Val.vlist (coordinates.map (fun c => c.java_obj))])

/-- An operation of the program that a client of `ocr.py` can perform:
constructing a helper or a coordinate, or calling any method of the helper.
`drawRectangle` is applied to the coordinates constructed so far. -/
inductive Op : Type where
  | newOcrHelper : Op
  | newCoordinate : Val → Val → Val → Val → Val → Val → Op
  | createDataset : PyObj → Val → Op
  | createMap : Val → Op
  | setPreferredMethod : Val → Op
  | getPreferredMethod : Op
  | setFallbackMethod : Val → Op
  | getFallbackMethod : Op
  | setMinSizeBeforeFallback : Val → Op
  | getMinSizeBeforeFallback : Op
  | setEngineMode : Val → Op
  | getEngineMode : Op
  | setPageSegMode : Val → Op
  | getPageSegMode : Op
  | setPageIteratorLevel : Val → Op
  | getPageIteratorLevel : Op
  | setScalingFactor : Val → Op
  | setSplitPages : Val → Op
  | getSplitPages : Op
  | setSplitRegions : Val → Op
  | getSplitRegions : Op
  | useErosion : Val → Val → Val → Op
  | drawRectangle : PyObj → Val → Op

/-- The local state visible to a client of `ocr.py`: the current helper
proxy, every coordinate object constructed so far, and the log of remote
invocations performed. -/
structure PState : Type where
  helper : OcrHelper
  coords : List Coordinate
  log : List RemoteCall

/-- One program operation, executed by the corresponding translated method:
it may extend the remote-call log and (only for `newCoordinate`) append a
coordinate object.  No operation of `ocr.py` assigns to the attributes of an
existing coordinate, and the translation reflects that. -/
def step (r : Remote) (s : PState) : Op → PState
  | Op.newOcrHelper =>
    let res := OcrHelper.init r
    { s with helper := res.2, log := s.log ++ [res.1] }
  | Op.newCoordinate i p x y w h =>
    let res := Coordinate.init r i p x y w h
    { s with coords := s.coords ++ [res.2], log := s.log ++ [res.1] }
  | Op.createDataset spark path =>
    let res := OcrHelper.createDataset r s.helper spark path
    { s with log := s.log ++ res.1 }
  | Op.createMap path =>
    { s with log := s.log ++ [(OcrHelper.createMap r s.helper path).1] }
  | Op.setPreferredMethod v =>
    { s with log := s.log ++ [(OcrHelper.setPreferredMethod r s.helper v).1] }
  | Op.getPreferredMethod =>
    { s with log := s.log ++ [(OcrHelper.getPreferredMethod r s.helper).1] }
  | Op.setFallbackMethod v =>
    { s with log := s.log ++ [(OcrHelper.setFallbackMethod r s.helper v).1] }
  | Op.getFallbackMethod =>
    { s with log := s.log ++ [(OcrHelper.getFallbackMethod r s.helper).1] }
  | Op.setMinSizeBeforeFallback v =>
    { s with log := s.log ++ [(OcrHelper.setMinSizeBeforeFallback r s.helper v).1] }
  | Op.getMinSizeBeforeFallback =>
    { s with log := s.log ++ [(OcrHelper.getMinSizeBeforeFallback r s.helper).1] }
  | Op.setEngineMode v =>
    { s with log := s.log ++ [(OcrHelper.setEngineMode r s.helper v).1] }
  | Op.getEngineMode =>
    { s with log := s.log ++ [(OcrHelper.getEngineMode r s.helper).1] }
  | Op.setPageSegMode v =>
    { s with log := s.log ++ [(OcrHelper.setPageSegMode r s.helper v).1] }
  | Op.getPageSegMode =>
    { s with log := s.log ++ [(OcrHelper.getPageSegMode r s.helper).1] }
  | Op.setPageIteratorLevel v =>
    { s with log := s.log ++ [(OcrHelper.setPageIteratorLevel r s.helper v).1] }
  | Op.getPageIteratorLevel =>
    { s with log := s.log ++ [(OcrHelper.getPageIteratorLevel r s.helper).1] }
  | Op.setScalingFactor v =>
    { s with log := s.log ++ [(OcrHelper.setScalingFactor r s.helper v).1] }
  | Op.setSplitPages v =>
    { s with log := s.log ++ [(OcrHelper.setSplitPages r s.helper v).1] }
  | Op.getSplitPages =>
    { s with log := s.log ++ [(OcrHelper.getSplitPages r s.helper).1] }
  | Op.setSplitRegions v =>
    { s with log := s.log ++ [(OcrHelper.setSplitRegions r s.helper v).1] }
  | Op.getSplitRegions =>
    { s with log := s.log ++ [(OcrHelper.getSplitRegions r s.helper).1] }
  | Op.useErosion u ks kh =>
    { s with log := s.log ++ [(OcrHelper.useErosion r s.helper u ks kh).1] }
  | Op.drawRectangle spark path =>
    { s with log := s.log ++ [(OcrHelper.drawRectangle r s.helper spark path s.coords).1] }

/-- Run a sequence of program operations from a state. -/
def run (r : Remote) (s : PState) : List Op → PState
  | [] => s
  | op :: ops => run r (step r s op) ops

end OcrPy

namespace SpellRun

/-- Python `file.readlines()` on the file's character contents: the list of
lines, each line keeping its terminating newline character, with a final
unterminated fragment (if any) as the last element. -/
def readlines : List Char → List (List Char)
  | [] => []
  | c :: rest =>
    if c = '\n' then [c] :: readlines rest
    else
      match readlines rest with
      | [] => [[c]]
      | l :: ls => (c :: l) :: ls

/-- The contents of the three data files `run.py` reads at module level:
the train ids file, the validation ids file, and the vocabulary file. -/
structure DataFiles : Type where
  trainIds : List Char
  validIds : List Char
  vocab : List Char

/-- `run.py` lines 29-30: `num_train_samples = len(fp.readlines())` over the
train ids file. -/
def num_train_samples (files : DataFiles) : Nat :=
  (readlines files.trainIds).length

/-- `run.py` lines 31-32: `num_valid_samples = len(fp.readlines())` over the
validation ids file. -/
def num_valid_samples (files : DataFiles) : Nat :=
  (readlines files.validIds).length

/-- `run.py` lines 35-36: `vocab_size = len(vocab.readlines())` over the
vocabulary file. -/
def vocab_size (files : DataFiles) : Nat :=
  (readlines files.vocab).length

/-- Stated from the spec's words "line count": the number of lines of a text
file, counting one line per newline character plus a final unterminated line
when the text is nonempty and does not end with a newline. -/
def specLineCount (cs : List Char) : Nat :=
  cs.count '\n' + (if cs.getLast? = some '\n' ∨ cs = [] then 0 else 1)

/-- `run.py` line 18. -/
def data_path : String := "/home/jose/spark-nlp-models/data/"

/-- `run.py` line 21. -/
def model_name : String := "gutenberg_65"

/-- `run.py` line 22. -/
def train_file : String := model_name ++ ".txt.ids"

/-- `run.py` line 23. -/
def classes_file : String := model_name ++ ".txt.classes"

/-- `run.py` line 24. -/
def vocab_file : String := model_name ++ ".txt.vocab"

/-- `run.py` line 25. -/
def valid_file : String := "valid.ids"

/-- `run.py` line 27. -/
def model_path : String :=
  "/home/jose/spark-nlp-old/python/sparknlp/spellchecker/model/best_model.ckpt"

/-- `run.py` line 34. -/
def vocab_path : String := data_path ++ vocab_file

/-- `run.py` lines 38-52: the six hardcoded test sentences and the six
candidate words. -/
def test_sentences : List String × List String :=
  (["she came to me in an unexpected gesture",
    "she came to me in an unexpected day",
    "she came to me in an unexpected car",
    "she came to me in an unexpected morning",
    "she came to me in an unexpected way",
    "she came to me in an unexpected dream"],
   ["gesture", "day", "car", "morning", "way", "dream"])

/-- An observable action of the spell-checker script: model construction and
initialization (`create_model`), loading the class/vocabulary files, the
training loop (which writes checkpoints), restoring a checkpoint, exporting
the model via `model.save`, and running predictions. -/
inductive Event : Type where
  | createModel : Event
  | loadClasses : String → Event
  | loadVocab : String → Event
  | batchTrain : String → String → Event
  | restore : String → Event
  | save : String → Event
  | predict : List String → Event

/-- `run.py` lines 71-80: the body of the `if TRAIN:` block — build the
model, load classes and vocabulary, and run `model.batch_train` on the train
and validation id files. -/
def trainBlock : List Event :=
  [Event.createModel,
   Event.loadClasses (data_path ++ classes_file),
   Event.loadVocab vocab_path,
   Event.batchTrain (data_path ++ train_file) (data_path ++ valid_file)]

/-- `run.py` lines 86-94: the second `with tf.Session()` block — build the
model, load classes and vocabulary, restore the checkpoint, export the model
as `bundle`, and predict on the test sentences.  In the source this block
follows the `if TRAIN:` statement at top level, with no `else`. -/
def restoreBlock : List Event :=
  [Event.createModel,
   Event.loadClasses (data_path ++ classes_file),
   Event.loadVocab vocab_path,
   Event.restore model_path,
   Event.save "bundle",
   Event.predict test_sentences.1]

/-- The trace of the whole script for a given value of the compile-time flag
`TRAIN` (`run.py` lines 71-94): the training block runs only when `TRAIN` is
true, and the restore block runs unconditionally afterwards. -/
def runScript (TRAIN : Bool) : List Event :=
  (if TRAIN then trainBlock else []) ++ restoreBlock

/-- Whether a trace contains the training loop. -/
def hasTrain (es : List Event) : Bool :=
  es.any fun e =>
    match e with
    | Event.batchTrain _ _ => true
    | _ => false

/-- Whether a trace contains a checkpoint restore. -/
def hasRestore (es : List Event) : Bool :=
  es.any fun e =>
    match e with
    | Event.restore _ => true
    | _ => false

/-- The exclusivity property asserted by the spec: for every value of
`TRAIN`, the script runs the training loop exactly when `TRAIN` is true and
the restore-and-infer path exactly when `TRAIN` is false — the two
alternatives being mutually exclusive. -/
def trainRestoreExclusive : Prop :=
  ∀ t : Bool, hasTrain (runScript t) = t ∧ hasRestore (runScript t) = !t

end SpellRun

namespace OcrPy

/-- A concrete bridge used to instantiate theorems at closed inputs. -/
def dummyRemote : Remote :=
  { new := fun _ _ => Val.handle 0, call := fun _ _ _ => Val.pyNone }

/-- A concrete helper proxy used to instantiate theorems at closed inputs. -/
def dummyHelper : OcrHelper := ⟨Val.handle 1⟩

end OcrPy

namespace OcrPy

/-- C2: `createDataset` raises exactly when the type of its first argument
is not `SparkSession` (an object whose type is `SparkSession` itself being a
session object); on a session object it performs the remote `createDataset`
call with the session's JVM handle and the path, and returns the remote
table handle wrapped as a local `DataFrame` paired with that session. -/
theorem createDataset_session_check (r : Remote) (self : OcrHelper)
    (spark : PyObj) (path : Val) :
    (OcrHelper.createDataset r self spark path =
        ([], Except.error "spark must be SparkSession") ∧
      spark.ty ≠ PyType.SparkSession) ∨
    (OcrHelper.createDataset r self spark path =
        ([RemoteCall.invoke self.java_obj "createDataset" [spark.jhandle, path]],
         Except.ok ⟨r.call self.java_obj "createDataset" [spark.jhandle, path], spark⟩) ∧
      spark.ty = PyType.SparkSession) := by
  by_cases hty : spark.ty = PyType.SparkSession
  · exact Or.inr ⟨by simp [OcrHelper.createDataset, hty], hty⟩
  · exact Or.inl ⟨by simp [OcrHelper.createDataset, hty], hty⟩

/-- C3: every getter/setter proxy method of `OcrHelper` (and `createMap`)
invokes the same-named method of the remote object with exactly the
argument list it received, order and values preserved, and returns the
remote call's result unchanged. -/
theorem proxy_methods_forward_exactly (r : Remote) (self : OcrHelper)
    (value mode level factor use k_size k_shape input_path : Val) :
    OcrHelper.setPreferredMethod r self value =
      (RemoteCall.invoke self.java_obj "setPreferredMethod" [value],
       r.call self.java_obj "setPreferredMethod" [value]) ∧
    OcrHelper.getPreferredMethod r self =
      (RemoteCall.invoke self.java_obj "getPreferredMethod" [],
       r.call self.java_obj "getPreferredMethod" []) ∧
    OcrHelper.setFallbackMethod r self value =
      (RemoteCall.invoke self.java_obj "setFallbackMethod" [value],
       r.call self.java_obj "setFallbackMethod" [value]) ∧
    OcrHelper.getFallbackMethod r self =
      (RemoteCall.invoke self.java_obj "getFallbackMethod" [],
       r.call self.java_obj "getFallbackMethod" []) ∧
    OcrHelper.setMinSizeBeforeFallback r self value =
      (RemoteCall.invoke self.java_obj "setMinSizeBeforeFallback" [value],
       r.call self.java_obj "setMinSizeBeforeFallback" [value]) ∧
    OcrHelper.getMinSizeBeforeFallback r self =
      (RemoteCall.invoke self.java_obj "getMinSizeBeforeFallback" [],
       r.call self.java_obj "getMinSizeBeforeFallback" []) ∧
    OcrHelper.setEngineMode r self mode =
      (RemoteCall.invoke self.java_obj "setEngineMode" [mode],
       r.call self.java_obj "setEngineMode" [mode]) ∧
    OcrHelper.getEngineMode r self =
      (RemoteCall.invoke self.java_obj "getEngineMode" [],
       r.call self.java_obj "getEngineMode" []) ∧
    OcrHelper.setPageSegMode r self mode =
      (RemoteCall.invoke self.java_obj "setPageSegMode" [mode],
       r.call self.java_obj "setPageSegMode" [mode]) ∧
    OcrHelper.getPageSegMode r self =
      (RemoteCall.invoke self.java_obj "getPageSegMode" [],
       r.call self.java_obj "getPageSegMode" []) ∧
    OcrHelper.setPageIteratorLevel r self level =
      (RemoteCall.invoke self.java_obj "setPageIteratorLevel" [level],
       r.call self.java_obj "setPageIteratorLevel" [level]) ∧
    OcrHelper.getPageIteratorLevel r self =
      (RemoteCall.invoke self.java_obj "getPageIteratorLevel" [],
       r.call self.java_obj "getPageIteratorLevel" []) ∧
    OcrHelper.setScalingFactor r self factor =
      (RemoteCall.invoke self.java_obj "setScalingFactor" [factor],
       r.call self.java_obj "setScalingFactor" [factor]) ∧
    OcrHelper.setSplitPages r self value =
      (RemoteCall.invoke self.java_obj "setSplitPages" [value],
       r.call self.java_obj "setSplitPages" [value]) ∧
    OcrHelper.getSplitPages r self =
      (RemoteCall.invoke self.java_obj "getSplitPages" [],
       r.call self.java_obj "getSplitPages" []) ∧
    OcrHelper.setSplitRegions r self value =
      (RemoteCall.invoke self.java_obj "setSplitRegions" [value],
       r.call self.java_obj "setSplitRegions" [value]) ∧
    OcrHelper.getSplitRegions r self =
      (RemoteCall.invoke self.java_obj "getSplitRegions" [],
       r.call self.java_obj "getSplitRegions" []) ∧
    OcrHelper.useErosion r self use k_size k_shape =
      (RemoteCall.invoke self.java_obj "useErosion" [use, k_size, k_shape],
       r.call self.java_obj "useErosion" [use, k_size, k_shape]) ∧
    OcrHelper.createMap r self input_path =
      (RemoteCall.invoke self.java_obj "createMap" [input_path],
       r.call self.java_obj "createMap" [input_path]) :=
  ⟨rfl, rfl, rfl, rfl, rfl, rfl, rfl, rfl, rfl, rfl,
   rfl, rfl, rfl, rfl, rfl, rfl, rfl, rfl, rfl⟩

/-- C5: constructing a `Coordinate` from six values stores exactly those six
values as the attributes `i, p, x, y, w, h` and forwards the same six
values, in that order, to the remote-side constructor. -/
theorem coordinate_init_stores_and_forwards (r : Remote) (i p x y w h : Val) :
    (Coordinate.init r i p x y w h).2.i = i ∧
    (Coordinate.init r i p x y w h).2.p = p ∧
    (Coordinate.init r i p x y w h).2.x = x ∧
    (Coordinate.init r i p x y w h).2.y = y ∧
    (Coordinate.init r i p x y w h).2.w = w ∧
    (Coordinate.init r i p x y w h).2.h = h ∧
    (Coordinate.init r i p x y w h).1 =
      RemoteCall.construct "com.johnsnowlabs.nlp.util.io.schema.Coordinate"
        [i, p, x, y, w, h] :=
  ⟨rfl, rfl, rfl, rfl, rfl, rfl, rfl⟩

/-- C6: `drawRectangle` invokes the remote `drawRectangle` with the
session's underlying JVM handle, the path unchanged, and the list of the
coordinates' remote handles — of the same length and in the same order as
the input coordinate list — and returns the remote result unchanged. -/
theorem drawRectangle_forwards (r : Remote) (self : OcrHelper) (spark : PyObj)
    (path : Val) (coordinates : List Coordinate) :
    (OcrHelper.drawRectangle r self spark path coordinates).1 =
      RemoteCall.invoke self.java_obj "drawRectangle"
        [spark.jhandle, path,
         Val.vlist (coordinates.map (fun c => c.java_obj))] ∧
    (coordinates.map (fun c => c.java_obj)).length = coordinates.length ∧
    (∀ k : Nat, (coordinates.map (fun c => c.java_obj))[k]? =
      (coordinates[k]?).map (fun c => c.java_obj)) ∧
    (OcrHelper.drawRectangle r self spark path coordinates).2 =
      r.call self.java_obj "drawRectangle"
        [spark.jhandle, path,
         Val.vlist (coordinates.map (fun c => c.java_obj))] :=
  ⟨rfl, List.length_map _ _, fun k => List.getElem?_map _ _ _, rfl⟩

/-- C8: `createDataset` rejects any first argument whose exact type is not
`SparkSession`, including instances of proper subclasses of `SparkSession`:
the source compares types with `!=`, so every object of a strict subclass of
`SparkSession` is rejected even though an `isinstance` test would accept
it. -/
theorem createDataset_rejects_strict_subclass (r : Remote) (self : OcrHelper)
    (spark : PyObj) (path : Val)
    (hsub : subclassOf spark.ty PyType.SparkSession = true)
    (hne : spark.ty ≠ PyType.SparkSession) :
    (OcrHelper.createDataset r self spark path).2 =
      Except.error "spark must be SparkSession" := by
  simp [OcrHelper.createDataset, hne]

/-- Witness for C8: a concrete object of a strict subclass of
`SparkSession` satisfies the hypotheses and is rejected. -/
theorem createDataset_rejects_strict_subclass_witness :
    (subclassOf (PyType.SubClass PyType.SparkSession) PyType.SparkSession = true ∧
      PyType.SubClass PyType.SparkSession ≠ PyType.SparkSession) ∧
    (OcrHelper.createDataset dummyRemote dummyHelper
        ⟨PyType.SubClass PyType.SparkSession, Val.handle 2⟩ (Val.str "p")).2 =
      Except.error "spark must be SparkSession" :=
  ⟨⟨by decide, by decide⟩,
   createDataset_rejects_strict_subclass dummyRemote dummyHelper
     ⟨PyType.SubClass PyType.SparkSession, Val.handle 2⟩ (Val.str "p")
     (by decide) (by decide)⟩

/-- C9: when `createDataset` raises because its first argument is not a
`SparkSession`, the list of remote invocations performed is empty: the
`raise` statement precedes the remote call expression, so no remote method
is invoked on the error path. -/
theorem createDataset_error_no_remote_call (r : Remote) (self : OcrHelper)
    (spark : PyObj) (path : Val) (hne : spark.ty ≠ PyType.SparkSession) :
    (OcrHelper.createDataset r self spark path).1 = [] := by
  simp [OcrHelper.createDataset, hne]

/-- Witness for C9: a concrete non-session argument triggers the error path
with no remote invocation. -/
theorem createDataset_error_no_remote_call_witness :
    PyType.Other "str" ≠ PyType.SparkSession ∧
    (OcrHelper.createDataset dummyRemote dummyHelper
        ⟨PyType.Other "str", Val.pyNone⟩ (Val.str "p")).1 = [] :=
  ⟨by decide,
   createDataset_error_no_remote_call dummyRemote dummyHelper
     ⟨PyType.Other "str", Val.pyNone⟩ (Val.str "p") (by decide)⟩

theorem step_coords_grows (r : Remote) (s : PState) (op : Op) :
    ∃ u, (step r s op).coords = s.coords ++ u := by
  cases op <;>
    first
      | exact ⟨[], (List.append_nil _).symm⟩
      | exact ⟨_, rfl⟩

theorem run_coords_grows (r : Remote) (ops : List Op) (s : PState) :
    ∃ u, (run r s ops).coords = s.coords ++ u := by
  induction ops generalizing s with
  | nil => exact ⟨[], (List.append_nil _).symm⟩
  | cons op ops ih =>
    obtain ⟨u1, h1⟩ := step_coords_grows r s op
    obtain ⟨u2, h2⟩ := ih (step r s op)
    refine ⟨u1 ++ u2, ?_⟩
    show (run r (step r s op) ops).coords = _
    rw [h2, h1, List.append_assoc]

/-- C4: a `Coordinate` is immutable — after construction with six values,
no sequence of program operations changes any of its six fields: reading
`i, p, x, y, w, h` of the same object after any further operations yields
the construction-time values. -/
theorem coordinate_immutable (r : Remote) (s : PState) (ops : List Op)
    (i p x y w h : Val) :
    ∃ c : Coordinate,
      (run r (step r s (Op.newCoordinate i p x y w h)) ops).coords[s.coords.length]? =
        some c ∧
      c.i = i ∧ c.p = p ∧ c.x = x ∧ c.y = y ∧ c.w = w ∧ c.h = h := by
  obtain ⟨u, hu⟩ := run_coords_grows r ops (step r s (Op.newCoordinate i p x y w h))
  refine ⟨(Coordinate.init r i p x y w h).2, ?_, rfl, rfl, rfl, rfl, rfl, rfl⟩
  have hstep : (step r s (Op.newCoordinate i p x y w h)).coords =
      s.coords ++ [(Coordinate.init r i p x y w h).2] := rfl
  rw [hu, hstep, List.append_assoc,
    List.getElem?_append_right (Nat.le_refl _)]
  simp

end OcrPy

namespace SpellRun

theorem readlines_eq_nil_iff (cs : List Char) : readlines cs = [] ↔ cs = [] := by
  constructor
  · intro hcs
    cases cs with
    | nil => rfl
    | cons c rest =>
      by_cases hc : c = '\n'
      · simp [readlines, hc] at hcs
      · rw [readlines, if_neg hc] at hcs
        cases hrl : readlines rest with
        | nil => rw [hrl] at hcs; simp at hcs
        | cons l ls => rw [hrl] at hcs; simp at hcs
  · intro h
    subst h
    rfl

theorem specLineCount_cons_cons (c b : Char) (bs : List Char) :
    specLineCount (c :: b :: bs) =
      (if c = '\n' then 1 else 0) + specLineCount (b :: bs) := by
  unfold specLineCount
  rw [List.getLast?_cons_cons, List.count_cons]
  by_cases hc : c = '\n' <;> simp [hc] <;> omega

theorem readlines_length (cs : List Char) :
    (readlines cs).length = specLineCount cs := by
  induction cs with
  | nil => rfl
  | cons c rest ih =>
    cases rest with
    | nil =>
      by_cases hc : c = '\n'
      · subst hc
        decide
      · simp [readlines, hc, specLineCount, List.count_cons]
    | cons b bs =>
      rw [specLineCount_cons_cons]
      by_cases hc : c = '\n'
      · subst hc
        have h1 : readlines ('\n' :: b :: bs) = ['\n'] :: readlines (b :: bs) := by
          rw [readlines, if_pos rfl]
        rw [h1, List.length_cons, ih]
        simp [Nat.add_comm]
      · obtain ⟨l, ls, hls⟩ : ∃ l ls, readlines (b :: bs) = l :: ls := by
          cases hbl : readlines (b :: bs) with
          | nil => exact absurd ((readlines_eq_nil_iff (b :: bs)).mp hbl) (by simp)
          | cons l ls => exact ⟨l, ls, rfl⟩
        have h1 : readlines (c :: b :: bs) = (c :: l) :: ls := by
          rw [readlines, if_neg hc, hls]
        rw [hls] at ih
        rw [h1, List.length_cons]
        rw [List.length_cons] at ih
        simp [hc]
        omega

/-- C7: the spell-checker script derives each dataset size as the line count
of the corresponding file, for whatever contents those files have:
`num_train_samples` is the number of lines of the train ids file,
`num_valid_samples` the number of lines of the validation ids file, and
`vocab_size` the number of lines of the vocabulary file. -/
theorem dataset_sizes_are_line_counts (files : DataFiles) :
    num_train_samples files = specLineCount files.trainIds ∧
    num_valid_samples files = specLineCount files.validIds ∧
    vocab_size files = specLineCount files.vocab :=
  ⟨readlines_length _, readlines_length _, readlines_length _⟩

/-- C1 counterexample: at the concrete input `TRAIN = true` the script's
trace contains the training loop AND the checkpoint restore — the `if
TRAIN:` statement in `run.py` has no `else`, so the restore-and-infer block
runs unconditionally — refuting the claimed mutual exclusivity of the two
alternatives. -/
theorem train_branch_not_exclusive :
    hasTrain (runScript true) = true ∧ hasRestore (runScript true) = true ∧
    ¬ trainRestoreExclusive := by
  refine ⟨rfl, rfl, fun hx => ?_⟩
  have h2 := (hx true).2
  rw [show hasRestore (runScript true) = true from rfl] at h2
  exact (by decide : ¬ (true = !true)) h2

/-- C1 amended: the compile-time flag `TRAIN` gates only the training block:
when `TRAIN` is false the script performs only the restore-and-infer block
(running no training loop), and when `TRAIN` is true it performs the
training block and then additionally the same restore-and-infer block — the
restore path executes for every value of `TRAIN`, so the two alternatives
are not mutually exclusive. -/
theorem train_flag_gates_training_only :
    runScript false = restoreBlock ∧
    runScript true = trainBlock ++ restoreBlock ∧
    (∀ t : Bool, hasTrain (runScript t) = t) ∧
    (∀ t : Bool, hasRestore (runScript t) = true) := by
  refine ⟨rfl, rfl, ?_, ?_⟩ <;> intro t <;> cases t <;> rfl

/-- C10: on every run of the script — for either value of `TRAIN` — the
trace restores the checkpoint, then exports the restored model by calling
the model's save operation with the name `bundle`, and only then runs
predictions on the test sentences. -/
theorem restore_then_save_bundle_then_predict (t : Bool) :
    ∃ j k l : Nat, j < k ∧ k < l ∧
      (runScript t)[j]? = some (Event.restore model_path) ∧
      (runScript t)[k]? = some (Event.save "bundle") ∧
      (runScript t)[l]? = some (Event.predict test_sentences.1) := by
  cases t
  · exact ⟨3, 4, 5, by decide, by decide, rfl, rfl, rfl⟩
  · exact ⟨7, 8, 9, by decide, by decide, rfl, rfl, rfl⟩

end SpellRun
